import Mathlib

/-!
Shallow embedding of `client/client.go` from the triton-go repository: the
`Client` type, its constructor `New`, the error decoder `DecodeError`, and
the three request-execution variants `ExecuteRequestURIParams`,
`ExecuteRequest` and `ExecuteRequestRaw`.

Effects of the Go standard library are passed in as explicit oracle
arguments: `marshal` models `json.MarshalIndent`, `now` the already
formatted result of `time.Now().UTC().Format(time.RFC1123)`, `newRequestOK`
whether `http.NewRequest` succeeds for a method/URL pair, `httpDo` the
transport call `HTTPClient.Do(req.WithContext(ctx))`, and `jsonDecode`
the effect of `json.Decoder.Decode` on a `*ClientError`.
-/

namespace Triton

/-- Go `url.URL` restricted to the fields the client code reads or writes
(`Scheme`, `Host`, `Path`, `RawQuery`). -/
structure URL where
  scheme : String
  host : String
  path : String
  rawQuery : String
deriving Repr, DecidableEq

/-- Go `url.URL.String()` for the fields modelled: scheme://host + path,
with `?rawQuery` appended when the query is non-empty. -/
def URL.toString (u : URL) : String :=
  u.scheme ++ "://" ++ u.host ++ u.path ++
    (if u.rawQuery = "" then "" else "?" ++ u.rawQuery)

/-- An `authentication.Signer`: produces an Authorization header value from a
date string, or fails. A `nil` interface value in a Go signer slice is
modelled as `none` in a `List (Option Signer)`. -/
structure Signer where
  sign : String → Except String String

/-- Go `ClientError`: the structured error decoded from a non-2xx response. -/
structure ClientError where
  statusCode : Int
  code : String
  message : String
deriving Repr, DecidableEq

/-- Go `ClientError.Error()`: `fmt.Sprintf("%s: %s", e.Code, e.Message)`. -/
def ClientError.errorString (e : ClientError) : String :=
  e.code ++ ": " ++ e.message

/-- Go `Client` (the HTTP transport handle is not modelled; the transport
behaviour enters through the `httpDo` oracle of the executors). -/
structure Client where
  authorizers : List (Option Signer)
  apiURL : URL
  accountName : String
  endpoint : String

/-- The unused source-level constant `nilContext`. -/
def nilContext : String := "nil context"

/-- Error outcomes of `New` (lines 56-103): the four `return nil, err`
paths of the constructor. -/
inductive NewError where
  | invalidEndpoint (msg : String)
  | missingAccountName
  | signerInitError (msg : String)
  | missingKeyID
deriving Repr, DecidableEq

/-- Go `New` (lines 56-103). Oracles: `parseURL` models `url.Parse`,
`sdcKeyID` the value of `os.Getenv("SDC_KEY_ID")`, `newSSHAgentSigner`
the constructor `authentication.NewSSHAgentSigner`.

Mirrors the source exactly: `newClient.Authorizers` is set to the
UNFILTERED `signers` argument (line 73); the nil-filtered local
`authorizers` list is used only for the length test (line 89) and, in the
fallback branch, as the basis of the appended agent signer (line 96). -/
def New (parseURL : String → Except String URL) (sdcKeyID : String)
    (newSSHAgentSigner : String → String → Except String Signer)
    (endpoint accountName : String) (signers : List (Option Signer)) :
    Except NewError Client :=
  match parseURL endpoint with
  | .error e => .error (.invalidEndpoint e)
  | .ok apiURL =>
    if accountName = "" then
      .error .missingAccountName
    else
      let newClient : Client :=
        { authorizers := signers, apiURL := apiURL,
          accountName := accountName, endpoint := endpoint }
      let authorizers := signers.filter fun key => key.isSome
      if authorizers.length = 0 then
        if sdcKeyID.length ≠ 0 then
          match newSSHAgentSigner sdcKeyID accountName with
          | .error e => .error (.signerInitError e)
          | .ok keySigner =>
            .ok { newClient with authorizers := authorizers ++ [some keySigner] }
        else
          .error .missingKeyID
      else
        .ok newClient

/-- Go `Client.FormatURL` (lines 137-139): `fmt.Sprintf("%s%s", c.Endpoint, path)`. -/
def Client.FormatURL (c : Client) (path : String) : String :=
  c.endpoint ++ path

/-- The effect of `json.Decoder.Decode` into a `*ClientError` on a
parseable body: each field is `some v` exactly when the JSON object carries
a key matching the struct field's name. The fields have no json tags, and
Go's `encoding/json` matches object keys to field names case-insensitively,
so a body key `statusCode` (or `StatusCode`) sets the `StatusCode` field;
keys absent from the body leave the pre-existing field value untouched. -/
structure ErrorDoc where
  statusCode : Option Int
  code : Option String
  message : Option String
deriving Repr, DecidableEq

/-- Go `Client.DecodeError` (lines 141-152). `jsonDecode` models
`json.NewDecoder(body).Decode` into a `*ClientError`: on success it yields
the fields the body sets (see `ErrorDoc`); on failure the wrapped decode
error is returned instead of the `ClientError`. The `ClientError` is
pre-populated with the externally supplied status code, so a field left
unset by the body keeps its pre-populated (zero) value. -/
def DecodeError (jsonDecode : String → Except String ErrorDoc)
    (statusCode : Int) (body : String) : Except String ClientError :=
  let err : ClientError := { statusCode := statusCode, code := "", message := "" }
  match jsonDecode body with
  | .error msg => .error ("Error decoding error response: " ++ msg)
  | .ok d =>
    .ok { statusCode := d.statusCode.getD err.statusCode,
          code := d.code.getD err.code,
          message := d.message.getD err.message }

/-- A Go `http.Request` as the client builds it: method, parsed URL, body
bytes, and headers in insertion order. -/
structure Request where
  method : String
  url : URL
  body : Option String
  headers : List (String × String)
deriving Repr, DecidableEq

/-- Go `http.Header.Set`: replaces the value under the key if present,
otherwise appends it. The client only sets pairwise distinct keys on a
fresh request, so MIME canonicalisation of keys is not modelled. -/
def Request.setHeader (r : Request) (k v : String) : Request :=
  if r.headers.any fun p => p.1 = k then
    { r with headers := r.headers.map fun p => if p.1 = k then (k, v) else p }
  else
    { r with headers := r.headers ++ [(k, v)] }

/-- Look up the first header with the given key. -/
def Request.getHeader (r : Request) (k : String) : Option String :=
  (r.headers.find? fun p => p.1 = k).map Prod.snd

/-- A Go `http.Response` restricted to what the client reads: the status
code and the body stream (`resp.Body`), modelled as its byte content. -/
structure Response where
  statusCode : Int
  body : String
deriving Repr, DecidableEq

/-- Error outcomes of the execution variants: each constructor is one
`return nil, ...` path of the Go code. `goPanic` models the runtime panic
of `c.Authorizers[0].Sign` when the list is empty or its head is nil.
`apiError` carries the `ClientError` built by `DecodeError`;
`errorBodyDecodeError` is `DecodeError`'s own wrapped decode failure. -/
inductive ExecError where
  | marshalError (msg : String)
  | requestConstructionError (msg : String)
  | goPanic (msg : String)
  | signingError (msg : String)
  | transportError (msg : String)
  | errorBodyDecodeError (msg : String)
  | apiError (e : ClientError)
deriving Repr, DecidableEq

/-- Lines 156-193 of `ExecuteRequestURIParams`: marshal the body, resolve
the URL (the path of a copy of `c.APIURL` is OVERWRITTEN with `path`,
line 167; `RawQuery` is overwritten with the encoded query only when the
query is non-nil, lines 168-170), construct the request, and set the
`date`, `Authorization`, `Accept`, `Accept-Version`, `User-Agent` and
conditional `Content-Type` headers. A non-nil `*url.Values` argument is
represented by its `Encode()` result, `some q`. -/
def buildRequestURIParams {α : Type} (marshal : α → Except String String)
    (now : String) (newRequestOK : String → String → Bool) (c : Client)
    (method path : String) (body : Option α) (query : Option String) :
    Except ExecError Request :=
  let requestBody : Except ExecError (Option String) :=
    match body with
    | none => .ok none
    | some b =>
      match marshal b with
      | .error e => .error (.marshalError e)
      | .ok m => .ok (some m)
  match requestBody with
  | .error e => .error e
  | .ok rbody =>
    let endpoint : URL := { c.apiURL with path := path }
    let endpoint : URL :=
      match query with
      | some q => { endpoint with rawQuery := q }
      | none => endpoint
    if newRequestOK method endpoint.toString then
      let req : Request := { method := method, url := endpoint, body := rbody, headers := [] }
      let req := req.setHeader "date" now
      match c.authorizers with
      | [] => .error (.goPanic "runtime error: index out of range")
      | none :: _ => .error (.goPanic "runtime error: nil signer")
      | some signer :: _ =>
        match signer.sign now with
        | .error e => .error (.signingError e)
        | .ok authHeader =>
          let req := req.setHeader "Authorization" authHeader
          let req := req.setHeader "Accept" "application/json"
          let req := req.setHeader "Accept-Version" "8"
          let req := req.setHeader "User-Agent" "triton-go Client API"
          let req :=
            if body.isSome then req.setHeader "Content-Type" "application/json"
            else req
          .ok req
    else
      .error (.requestConstructionError "Error constructing HTTP request")

/-- Go `Client.ExecuteRequestURIParams` (lines 156-205): build the signed
request, send it through the transport bound to the caller's context, and
classify the response: a status in [200, 300) returns the open body
stream; any other status returns `DecodeError`'s result as the failure
with no stream. -/
def ExecuteRequestURIParams {α κ : Type} (marshal : α → Except String String)
    (now : String) (newRequestOK : String → String → Bool)
    (httpDo : κ → Request → Except String Response)
    (jsonDecode : String → Except String ErrorDoc) (c : Client) (ctx : κ)
    (method path : String) (body : Option α) (query : Option String) :
    Except ExecError String :=
  match buildRequestURIParams marshal now newRequestOK c method path body query with
  | .error e => .error e
  | .ok req =>
    match httpDo ctx req with
    | .error e => .error (.transportError e)
    | .ok resp =>
      if 200 ≤ resp.statusCode ∧ resp.statusCode < 300 then
        .ok resp.body
      else
        match DecodeError jsonDecode resp.statusCode resp.body with
        | .error e => .error (.errorBodyDecodeError e)
        | .ok ce => .error (.apiError ce)

/-- Go `Client.ExecuteRequest` (lines 207-209): delegates to
`ExecuteRequestURIParams` with a nil query. -/
def ExecuteRequest {α κ : Type} (marshal : α → Except String String)
    (now : String) (newRequestOK : String → String → Bool)
    (httpDo : κ → Request → Except String Response)
    (jsonDecode : String → Except String ErrorDoc) (c : Client) (ctx : κ)
    (method path : String) (body : Option α) : Except ExecError String :=
  ExecuteRequestURIParams marshal now newRequestOK httpDo jsonDecode c ctx
    method path body none

/-- Lines 211-245 of `ExecuteRequestRaw`: identical to
`buildRequestURIParams` except that no query parameter exists (the copied
`c.APIURL`'s `RawQuery` is left untouched, lines 221-222) and the
`User-Agent` header is the distinct string `"triton-go c API"` (line 241). -/
def buildRequestRaw {α : Type} (marshal : α → Except String String)
    (now : String) (newRequestOK : String → String → Bool) (c : Client)
    (method path : String) (body : Option α) : Except ExecError Request :=
  let requestBody : Except ExecError (Option String) :=
    match body with
    | none => .ok none
    | some b =>
      match marshal b with
      | .error e => .error (.marshalError e)
      | .ok m => .ok (some m)
  match requestBody with
  | .error e => .error e
  | .ok rbody =>
    let endpoint : URL := { c.apiURL with path := path }
    if newRequestOK method endpoint.toString then
      let req : Request := { method := method, url := endpoint, body := rbody, headers := [] }
      let req := req.setHeader "date" now
      match c.authorizers with
      | [] => .error (.goPanic "runtime error: index out of range")
      | none :: _ => .error (.goPanic "runtime error: nil signer")
      | some signer :: _ =>
        match signer.sign now with
        | .error e => .error (.signingError e)
        | .ok authHeader =>
          let req := req.setHeader "Authorization" authHeader
          let req := req.setHeader "Accept" "application/json"
          let req := req.setHeader "Accept-Version" "8"
          let req := req.setHeader "User-Agent" "triton-go c API"
          let req :=
            if body.isSome then req.setHeader "Content-Type" "application/json"
            else req
          .ok req
    else
      .error (.requestConstructionError "Error constructing HTTP request")

/-- Go `Client.ExecuteRequestRaw` (lines 211-253): build the signed
request, send it, and return the raw response untouched — no status
classification and no error decoding. -/
def ExecuteRequestRaw {α κ : Type} (marshal : α → Except String String)
    (now : String) (newRequestOK : String → String → Bool)
    (httpDo : κ → Request → Except String Response) (c : Client) (ctx : κ)
    (method path : String) (body : Option α) : Except ExecError Response :=
  match buildRequestRaw marshal now newRequestOK c method path body with
  | .error e => .error e
  | .ok req =>
    match httpDo ctx req with
    | .error e => .error (.transportError e)
    | .ok resp => .ok resp

/-! Concrete fixtures used in counterexamples and witnesses. -/

/-- A URL parser that accepts everything and returns a fixed parse result. -/
def parseFixed (u : URL) : String → Except String URL := fun _ => .ok u

/-- A base URL with an empty path and query. -/
def urlNoPath : URL := { scheme := "http", host := "h", path := "", rawQuery := "" }

/-- A base URL whose configured endpoint already carries the path `/v1`. -/
def urlV1 : URL := { scheme := "http", host := "h", path := "/v1", rawQuery := "" }

/-- A signer that always succeeds. -/
def okSigner : Signer := { sign := fun d => .ok ("Signature " ++ d) }

/-- A signer that always fails. -/
def errSigner : Signer := { sign := fun _ => .error "boom" }

/-- An SSH-agent-signer constructor that always fails. -/
def noAgentSigner : String → String → Except String Signer :=
  fun _ _ => .error "agent unavailable"

/-- A fixed RFC-1123 UTC date string standing for the formatted current time. -/
def d0 : String := "Mon, 02 Jan 2006 15:04:05 UTC"

/-- A client over `urlNoPath` with a single working signer. -/
def c0 : Client :=
  { authorizers := [some okSigner], apiURL := urlNoPath,
    accountName := "acct", endpoint := "http://h" }

/-- A client whose configured endpoint URL carries the non-empty path `/v1`. -/
def cV1 : Client :=
  { authorizers := [some okSigner], apiURL := urlV1,
    accountName := "acct", endpoint := "http://h/v1" }

/-! Shape lemmas: a successful build yields exactly the request the source
constructs, with its URL and headers in closed form. -/

/-- Characterise a successful `buildRequestURIParams`: the head signer
exists and signs, the URL is `c.apiURL` with its path replaced and its
query overwritten only when a query is supplied, and the headers are the
five fixed ones plus a conditional `Content-Type`. -/
theorem buildRequestURIParams_ok_shape {α : Type}
    (marshal : α → Except String String) (now : String)
    (newRequestOK : String → String → Bool) (c : Client)
    (method path : String) (body : Option α) (query : Option String)
    (req : Request)
    (hb : buildRequestURIParams marshal now newRequestOK c method path body query
      = .ok req) :
    ∃ s rest auth mb,
      c.authorizers = some s :: rest ∧
      s.sign now = .ok auth ∧
      mb.isSome = body.isSome ∧
      req = { method := method,
              url := { scheme := c.apiURL.scheme, host := c.apiURL.host,
                       path := path,
                       rawQuery := match query with
                                   | some q => q
                                   | none => c.apiURL.rawQuery },
              body := mb,
              headers := [("date", now), ("Authorization", auth),
                          ("Accept", "application/json"),
                          ("Accept-Version", "8"),
                          ("User-Agent", "triton-go Client API")]
                ++ (if body.isSome then [("Content-Type", "application/json")] else []) } := by
  simp only [buildRequestURIParams.eq_def] at hb
  split at hb
  next e heq => exact absurd hb (by simp)
  next rbody heq =>
    split at hb
    next hn =>
      split at hb
      next hca => exact absurd hb (by simp)
      next hca => exact absurd hb (by simp)
      next s tl hca =>
        split at hb
        next e hsg => exact absurd hb (by simp)
        next auth hsg =>
          refine ⟨s, tl, auth, rbody, hca, hsg, ?_, ?_⟩
          · cases body with
            | none =>
              rw [← Except.ok.inj heq]
              rfl
            | some b =>
              have heq2 : (match marshal b with
                  | Except.error e => Except.error (ExecError.marshalError e)
                  | Except.ok m => Except.ok (some m)) = Except.ok rbody := heq
              cases hmb : marshal b with
              | error e => rw [hmb] at heq2; simp at heq2
              | ok m =>
                rw [hmb] at heq2
                have h2 : (Except.ok (some m) : Except ExecError (Option String)) = Except.ok rbody := heq2
                rw [← Except.ok.inj h2]
                rfl
          · rw [← Except.ok.inj hb]
            cases hbs : body.isSome with
            | true => cases query <;> rfl
            | false => cases query <;> rfl
    next hn => exact absurd hb (by simp)

/-- Characterise a successful `buildRequestRaw`: as for
`buildRequestURIParams`, but the URL keeps `c.apiURL`'s query untouched
and the `User-Agent` header is `"triton-go c API"`. -/
theorem buildRequestRaw_ok_shape {α : Type}
    (marshal : α → Except String String) (now : String)
    (newRequestOK : String → String → Bool) (c : Client)
    (method path : String) (body : Option α) (req : Request)
    (hb : buildRequestRaw marshal now newRequestOK c method path body = .ok req) :
    ∃ s rest auth mb,
      c.authorizers = some s :: rest ∧
      s.sign now = .ok auth ∧
      mb.isSome = body.isSome ∧
      req = { method := method,
              url := { scheme := c.apiURL.scheme, host := c.apiURL.host,
                       path := path, rawQuery := c.apiURL.rawQuery },
              body := mb,
              headers := [("date", now), ("Authorization", auth),
                          ("Accept", "application/json"),
                          ("Accept-Version", "8"),
                          ("User-Agent", "triton-go c API")]
                ++ (if body.isSome then [("Content-Type", "application/json")] else []) } := by
  simp only [buildRequestRaw.eq_def] at hb
  split at hb
  next e heq => exact absurd hb (by simp)
  next rbody heq =>
    split at hb
    next hn =>
      split at hb
      next hca => exact absurd hb (by simp)
      next hca => exact absurd hb (by simp)
      next s tl hca =>
        split at hb
        next e hsg => exact absurd hb (by simp)
        next auth hsg =>
          refine ⟨s, tl, auth, rbody, hca, hsg, ?_, ?_⟩
          · cases body with
            | none =>
              rw [← Except.ok.inj heq]
              rfl
            | some b =>
              have heq2 : (match marshal b with
                  | Except.error e => Except.error (ExecError.marshalError e)
                  | Except.ok m => Except.ok (some m)) = Except.ok rbody := heq
              cases hmb : marshal b with
              | error e => rw [hmb] at heq2; simp at heq2
              | ok m =>
                rw [hmb] at heq2
                have h2 : (Except.ok (some m) : Except ExecError (Option String)) = Except.ok rbody := heq2
                rw [← Except.ok.inj h2]
                rfl
          · rw [← Except.ok.inj hb]
            cases hbs : body.isSome with
            | true => rfl
            | false => rfl
    next hn => exact absurd hb (by simp)

/-! Further fixtures used by the claim witnesses. -/

/-- A JSON error body that itself carries a `statusCode` key. -/
def bodyWithStatus : String :=
  "\x7b\"statusCode\": 999, \"code\": \"c\", \"message\": \"m\"\x7d"

/-- The effect of the Go JSON decoder on `bodyWithStatus`: all three keys
of the object match a field of the target struct, `statusCode` matching
`StatusCode` case-insensitively. -/
def decodeWithStatus : String → Except String ErrorDoc := fun s =>
  if s = bodyWithStatus then
    .ok { statusCode := some 999, code := some "c", message := some "m" }
  else
    .error "invalid character"

/-- A JSON error body of the expected shape: only `code` and `message`. -/
def goodBody : String := "\x7b\"code\": \"Conflict\", \"message\": \"exists\"\x7d"

/-- The effect of the Go JSON decoder on `goodBody`: it sets only the
`Code` and `Message` fields; any other body fails to decode. -/
def decodeGood : String → Except String ErrorDoc := fun s =>
  if s = goodBody then
    .ok { statusCode := none, code := some "Conflict", message := some "exists" }
  else
    .error "invalid character"

/-- The request `buildRequestURIParams` constructs for `c0`, method GET,
path `/p`, no body and no query at date `d0`. -/
def reqC3 : Request :=
  { method := "GET",
    url := { scheme := "http", host := "h", path := "/p", rawQuery := "" },
    body := none,
    headers := [("date", d0), ("Authorization", "Signature " ++ d0),
                ("Accept", "application/json"), ("Accept-Version", "8"),
                ("User-Agent", "triton-go Client API")] }

/-- The request `buildRequestRaw` constructs for the same arguments. -/
def reqC3raw : Request :=
  { method := "GET",
    url := { scheme := "http", host := "h", path := "/p", rawQuery := "" },
    body := none,
    headers := [("date", d0), ("Authorization", "Signature " ++ d0),
                ("Accept", "application/json"), ("Accept-Version", "8"),
                ("User-Agent", "triton-go c API")] }

/-! Claim theorems. -/

/-- C1: evaluating `New` at endpoint `http://h`, account `acct` and signer
list `[nil, okSigner]` shows that construction succeeds but the returned
Client's Authorizers list is the unfiltered argument list `[nil, okSigner]`
— the nil signer is NOT filtered out of the returned Client (the filtered
list is only used to decide whether the fallback runs), contradicting the
claim that the returned Authorizers list contains no nil signers. -/
theorem c1_new_keeps_nil_signer :
    New (parseFixed urlNoPath) "" noAgentSigner "http://h" "acct"
        [none, some okSigner]
      = .ok { authorizers := [none, some okSigner], apiURL := urlNoPath,
              accountName := "acct", endpoint := "http://h" } := by
  rfl

/-- C7: after filtering, with zero signers left, an absent (empty)
`SDC_KEY_ID` environment value makes `New` fail with `missingKeyID`; a
present value whose agent-signer construction fails makes `New` fail with
`signerInitError`, an error distinct from `missingKeyID`. -/
theorem c7_fallback_error_paths
    (parseURL : String → Except String URL)
    (ctor : String → String → Except String Signer)
    (endpoint accountName keyID emsg : String)
    (signers : List (Option Signer)) (u : URL)
    (hp : parseURL endpoint = .ok u)
    (ha : accountName ≠ "")
    (hf : signers.filter (fun key => key.isSome) = [])
    (hk : keyID.length ≠ 0)
    (hctor : ctor keyID accountName = .error emsg) :
    New parseURL "" ctor endpoint accountName signers = .error .missingKeyID
    ∧ New parseURL keyID ctor endpoint accountName signers
        = .error (.signerInitError emsg)
    ∧ NewError.signerInitError emsg ≠ NewError.missingKeyID := by
  refine ⟨?_, ?_, by simp⟩
  · simp [New.eq_def, hp, ha, hf]
  · simp [New.eq_def, hp, ha, hf, hk, hctor]

/-- C7 witness: at a concrete endpoint, account and all-nil signer list,
the two fallback failure modes evaluate as the theorem states. -/
theorem c7_witness :
    New (parseFixed urlNoPath) "" noAgentSigner "http://h" "acct" [none]
        = .error .missingKeyID
    ∧ New (parseFixed urlNoPath) "de:ad" noAgentSigner "http://h" "acct" [none]
        = .error (.signerInitError "agent unavailable")
    ∧ NewError.signerInitError "agent unavailable" ≠ NewError.missingKeyID :=
  c7_fallback_error_paths (parseFixed urlNoPath) noAgentSigner "http://h"
    "acct" "de:ad" "agent unavailable" [none] urlNoPath rfl (by decide) rfl
    (by decide) rfl

/-- C8 counterexample: the external status code is 404 and the body is
parseable, yet the returned ClientError carries status 999 taken from the
body's own `statusCode` key — the claim that the result carries exactly
the externally supplied status code fails on bodies that carry a
`statusCode` key, because the decoder writes into the pre-populated
struct and Go matches the key to the `StatusCode` field. -/
theorem c8_counterexample :
    DecodeError decodeWithStatus 404 bodyWithStatus
      = .ok { statusCode := 999, code := "c", message := "m" }
    ∧ (999 : Int) ≠ 404 := by
  exact ⟨rfl, by decide⟩

/-- C8 (amended): whenever the parsed body document carries no
`statusCode` field — in particular for every body of the expected shape,
which has only `code` and `message` — the returned ClientError carries
exactly the externally supplied status code; and when the body cannot be
parsed, a wrapped decode error is returned instead of a ClientError. -/
theorem c8_decode_amended
    (jsonDecode : String → Except String ErrorDoc) (sc : Int) (body : String)
    (d : ErrorDoc) (emsg : String) :
    (jsonDecode body = .ok d → d.statusCode = none →
      DecodeError jsonDecode sc body
        = .ok { statusCode := sc, code := d.code.getD "",
                message := d.message.getD "" })
    ∧ (jsonDecode body = .error emsg →
      DecodeError jsonDecode sc body
        = .error ("Error decoding error response: " ++ emsg)) := by
  constructor
  · intro h hs
    simp [DecodeError, h, hs]
  · intro h
    simp [DecodeError, h]

/-- C8 witness: on a body of the expected shape the externally supplied
status 409 is preserved, and on an unparseable body the wrapped decode
error is returned. -/
theorem c8_witness :
    DecodeError decodeGood 409 goodBody
      = .ok { statusCode := 409, code := "Conflict", message := "exists" }
    ∧ DecodeError decodeGood 409 "oops"
      = .error ("Error decoding error response: " ++ "invalid character") :=
  ⟨(c8_decode_amended decodeGood 409 goodBody
      { statusCode := none, code := some "Conflict", message := some "exists" }
      "x").1 rfl rfl,
   (c8_decode_amended decodeGood 409 "oops"
      { statusCode := none, code := none, message := none }
      "invalid character").2 rfl⟩

/-- C9: `ExecuteRequest` returns exactly the result of
`ExecuteRequestURIParams` with the same context, method, path and body
and no query parameters, for every input. -/
theorem c9_executeRequest_is_uriparams {α κ : Type}
    (marshal : α → Except String String) (now : String)
    (newRequestOK : String → String → Bool)
    (httpDo : κ → Request → Except String Response)
    (jsonDecode : String → Except String ErrorDoc) (c : Client) (ctx : κ)
    (method path : String) (body : Option α) :
    ExecuteRequest marshal now newRequestOK httpDo jsonDecode c ctx
        method path body
      = ExecuteRequestURIParams marshal now newRequestOK httpDo jsonDecode c
          ctx method path body none := rfl

/-- C3: for the requests built by both execution pipelines, the `date`
header value is exactly the `now` string handed to the signer's `sign`,
that header occurs exactly once, and the `Authorization` header occurs
exactly once and equals the signer's output on that same date string. -/
theorem c3_date_header_matches_signed_string {α : Type}
    (marshal : α → Except String String) (now : String)
    (newRequestOK : String → String → Bool) (c : Client) (s : Signer)
    (rest : List (Option Signer)) (method path : String) (body : Option α)
    (query : Option String) (req reqRaw : Request)
    (hc : c.authorizers = some s :: rest)
    (hb : buildRequestURIParams marshal now newRequestOK c method path body
      query = .ok req)
    (hbr : buildRequestRaw marshal now newRequestOK c method path body
      = .ok reqRaw) :
    (req.getHeader "date" = some now
      ∧ (req.headers.filter fun p => p.1 = "date").length = 1
      ∧ ∃ auth, s.sign now = .ok auth
          ∧ req.getHeader "Authorization" = some auth
          ∧ (req.headers.filter fun p => p.1 = "Authorization").length = 1)
    ∧ (reqRaw.getHeader "date" = some now
      ∧ (reqRaw.headers.filter fun p => p.1 = "date").length = 1
      ∧ ∃ auth, s.sign now = .ok auth
          ∧ reqRaw.getHeader "Authorization" = some auth
          ∧ (reqRaw.headers.filter fun p => p.1 = "Authorization").length = 1) := by
  obtain ⟨s1, r1, auth1, mb1, hc1, hs1, hm1, hreq⟩ :=
    buildRequestURIParams_ok_shape marshal now newRequestOK c method path
      body query req hb
  obtain ⟨s2, r2, auth2, mb2, hc2, hs2, hm2, hreqRaw⟩ :=
    buildRequestRaw_ok_shape marshal now newRequestOK c method path body
      reqRaw hbr
  rw [hc] at hc1 hc2
  injection hc1 with hh1 ht1
  injection hc2 with hh2 ht2
  injection hh1 with hh1v
  injection hh2 with hh2v
  subst hh1v
  subst hh2v
  subst hreq
  subst hreqRaw
  cases hbs : body.isSome with
  | true =>
    exact ⟨⟨rfl, rfl, auth1, hs1, rfl, rfl⟩, rfl, rfl, auth2, hs2, rfl, rfl⟩
  | false =>
    exact ⟨⟨rfl, rfl, auth1, hs1, rfl, rfl⟩, rfl, rfl, auth2, hs2, rfl, rfl⟩

/-- C3 witness: for the concrete client `c0` at date `d0` both builders
produce requests whose headers satisfy the theorem's conclusion. -/
theorem c3_witness :
    (reqC3.getHeader "date" = some d0
      ∧ (reqC3.headers.filter fun p => p.1 = "date").length = 1
      ∧ ∃ auth, okSigner.sign d0 = .ok auth
          ∧ reqC3.getHeader "Authorization" = some auth
          ∧ (reqC3.headers.filter fun p => p.1 = "Authorization").length = 1)
    ∧ (reqC3raw.getHeader "date" = some d0
      ∧ (reqC3raw.headers.filter fun p => p.1 = "date").length = 1
      ∧ ∃ auth, okSigner.sign d0 = .ok auth
          ∧ reqC3raw.getHeader "Authorization" = some auth
          ∧ (reqC3raw.headers.filter fun p => p.1 = "Authorization").length = 1) :=
  c3_date_header_matches_signed_string (fun _ : Unit => .ok "null") d0
    (fun _ _ => true) c0 okSigner [] "GET" "/p" none none reqC3 reqC3raw
    rfl rfl rfl

/-- C5 counterexample: for the client whose configured endpoint URL is
`http://h/v1`, the URL of the built request for path `/x` is `http://h/x`
— the endpoint's own path component is replaced, not appended — while the
claim's resolution (the configured endpoint URL with the path appended,
as `FormatURL` computes it) is the different string `http://h/v1/x`. -/
theorem c5_counterexample :
    (buildRequestURIParams (fun _ : Unit => .ok "null") d0 (fun _ _ => true)
        cV1 "GET" "/x" none none).map (fun r => r.url.toString)
      = .ok "http://h/x"
    ∧ cV1.FormatURL "/x" = "http://h/v1/x"
    ∧ "http://h/x" ≠ "http://h/v1/x" :=
  ⟨rfl, rfl, by decide⟩

/-- C5 (amended): the target URL of every built request is the configured
endpoint URL with its path component REPLACED by the given path (which
coincides with appending exactly when the configured endpoint URL has an
empty path); the encoded query parameters are attached when provided, the
configured query being kept otherwise; the raw variant always keeps the
configured query. -/
theorem c5_amended_url_resolution {α : Type}
    (marshal : α → Except String String) (now : String)
    (newRequestOK : String → String → Bool) (c : Client)
    (method path : String) (body : Option α) (query : Option String)
    (req reqRaw : Request)
    (hb : buildRequestURIParams marshal now newRequestOK c method path body
      query = .ok req)
    (hbr : buildRequestRaw marshal now newRequestOK c method path body
      = .ok reqRaw) :
    req.url = { scheme := c.apiURL.scheme, host := c.apiURL.host,
                path := path,
                rawQuery := match query with
                            | some q => q
                            | none => c.apiURL.rawQuery }
    ∧ reqRaw.url = { scheme := c.apiURL.scheme, host := c.apiURL.host,
                     path := path, rawQuery := c.apiURL.rawQuery } := by
  obtain ⟨s1, r1, auth1, mb1, hc1, hs1, hm1, hreq⟩ :=
    buildRequestURIParams_ok_shape marshal now newRequestOK c method path
      body query req hb
  obtain ⟨s2, r2, auth2, mb2, hc2, hs2, hm2, hreqRaw⟩ :=
    buildRequestRaw_ok_shape marshal now newRequestOK c method path body
      reqRaw hbr
  subst hreq
  subst hreqRaw
  cases query with
  | none => exact ⟨rfl, rfl⟩
  | some q => exact ⟨rfl, rfl⟩

/-- C5 witness: for `c0` (empty endpoint path) with query `a=1`, the built
request's URL is `http://h/p?a=1` as the amended claim states. -/
theorem c5_witness :
    ({ method := "GET",
       url := { scheme := "http", host := "h", path := "/p", rawQuery := "a=1" },
       body := none,
       headers := [("date", d0), ("Authorization", "Signature " ++ d0),
                   ("Accept", "application/json"), ("Accept-Version", "8"),
                   ("User-Agent", "triton-go Client API")] } : Request).url
      = { scheme := "http", host := "h", path := "/p", rawQuery := "a=1" }
    ∧ reqC3raw.url
      = { scheme := "http", host := "h", path := "/p", rawQuery := "" } :=
  c5_amended_url_resolution (fun _ : Unit => .ok "null") d0 (fun _ _ => true)
    c0 "GET" "/p" none (some "a=1") _ reqC3raw rfl rfl

/-- C6 counterexample: at the same concrete input, the stream variant's
built request carries the User-Agent `triton-go Client API` while the raw
variant's carries the different string `triton-go c API`, so the variants
do not set the same fixed User-Agent client-identifier string. -/
theorem c6_counterexample :
    (buildRequestURIParams (fun _ : Unit => .ok "null") d0 (fun _ _ => true)
        c0 "GET" "/p" none none).map (fun r => r.getHeader "User-Agent")
      = .ok (some "triton-go Client API")
    ∧ (buildRequestRaw (fun _ : Unit => .ok "null") d0 (fun _ _ => true)
        c0 "GET" "/p" none).map (fun r => r.getHeader "User-Agent")
      = .ok (some "triton-go c API")
    ∧ "triton-go Client API" ≠ "triton-go c API" :=
  ⟨rfl, rfl, by decide⟩

/-- C6 (amended): all variants set `Accept: application/json`,
`Accept-Version: 8` and `Content-Type: application/json` exactly when a
body is present; each variant sets a fixed User-Agent string, but the
stream variants set `triton-go Client API` while the raw variant sets the
different string `triton-go c API`. -/
theorem c6_amended_fixed_headers {α : Type}
    (marshal : α → Except String String) (now : String)
    (newRequestOK : String → String → Bool) (c : Client)
    (method path : String) (body : Option α) (query : Option String)
    (req reqRaw : Request)
    (hb : buildRequestURIParams marshal now newRequestOK c method path body
      query = .ok req)
    (hbr : buildRequestRaw marshal now newRequestOK c method path body
      = .ok reqRaw) :
    req.getHeader "Accept" = some "application/json"
    ∧ reqRaw.getHeader "Accept" = some "application/json"
    ∧ req.getHeader "Accept-Version" = some "8"
    ∧ reqRaw.getHeader "Accept-Version" = some "8"
    ∧ req.getHeader "User-Agent" = some "triton-go Client API"
    ∧ reqRaw.getHeader "User-Agent" = some "triton-go c API"
    ∧ req.getHeader "Content-Type"
        = (if body.isSome then some "application/json" else none)
    ∧ reqRaw.getHeader "Content-Type"
        = (if body.isSome then some "application/json" else none) := by
  obtain ⟨s1, r1, auth1, mb1, hc1, hs1, hm1, hreq⟩ :=
    buildRequestURIParams_ok_shape marshal now newRequestOK c method path
      body query req hb
  obtain ⟨s2, r2, auth2, mb2, hc2, hs2, hm2, hreqRaw⟩ :=
    buildRequestRaw_ok_shape marshal now newRequestOK c method path body
      reqRaw hbr
  subst hreq
  subst hreqRaw
  cases hbs : body.isSome with
  | true => exact ⟨rfl, rfl, rfl, rfl, rfl, rfl, rfl, rfl⟩
  | false => exact ⟨rfl, rfl, rfl, rfl, rfl, rfl, rfl, rfl⟩

/-- C6 witness: the fixed headers of the two concretely built requests
`reqC3` and `reqC3raw` (no body, so no Content-Type). -/
theorem c6_witness :
    reqC3.getHeader "Accept" = some "application/json"
    ∧ reqC3raw.getHeader "Accept" = some "application/json"
    ∧ reqC3.getHeader "Accept-Version" = some "8"
    ∧ reqC3raw.getHeader "Accept-Version" = some "8"
    ∧ reqC3.getHeader "User-Agent" = some "triton-go Client API"
    ∧ reqC3raw.getHeader "User-Agent" = some "triton-go c API"
    ∧ reqC3.getHeader "Content-Type"
        = (if (none : Option Unit).isSome then some "application/json" else none)
    ∧ reqC3raw.getHeader "Content-Type"
        = (if (none : Option Unit).isSome then some "application/json" else none) :=
  c6_amended_fixed_headers (fun _ : Unit => .ok "null") d0 (fun _ _ => true)
    c0 "GET" "/p" none none reqC3 reqC3raw rfl rfl

/-- C10: `ExecuteRequestRaw` takes no query argument and leaves the query
component untouched: the built request's URL carries exactly the query of
the Client's configured APIURL, and the raw executor forwards exactly
that built request to the transport, returning the response untouched. -/
theorem c10_raw_preserves_query {α κ : Type}
    (marshal : α → Except String String) (now : String)
    (newRequestOK : String → String → Bool)
    (httpDo : κ → Request → Except String Response) (c : Client) (ctx : κ)
    (method path : String) (body : Option α) (req : Request)
    (hbr : buildRequestRaw marshal now newRequestOK c method path body
      = .ok req) :
    req.url.rawQuery = c.apiURL.rawQuery
    ∧ ExecuteRequestRaw marshal now newRequestOK httpDo c ctx method path body
        = match httpDo ctx req with
          | .error e => .error (.transportError e)
          | .ok resp => .ok resp := by
  obtain ⟨s1, r1, auth1, mb1, hc1, hs1, hm1, hreq⟩ :=
    buildRequestRaw_ok_shape marshal now newRequestOK c method path body
      req hbr
  constructor
  · subst hreq
    rfl
  · simp only [ExecuteRequestRaw.eq_def, hbr]

/-- C10 witness: the concrete raw request `reqC3raw` keeps `c0`'s (empty)
query, and the raw executor returns the transport's response untouched. -/
theorem c10_witness :
    reqC3raw.url.rawQuery = c0.apiURL.rawQuery
    ∧ ExecuteRequestRaw (fun _ : Unit => .ok "null") d0 (fun _ _ => true)
        (fun _ _ => .ok { statusCode := 301, body := "moved" }) c0 ()
        "GET" "/p" none
        = match (fun (_ : Unit) (_ : Request) =>
              (.ok { statusCode := 301, body := "moved" }
                : Except String Response)) () reqC3raw with
          | .error e => .error (.transportError e)
          | .ok resp => .ok resp :=
  c10_raw_preserves_query (fun _ : Unit => .ok "null") d0 (fun _ _ => true)
    (fun _ _ => .ok { statusCode := 301, body := "moved" }) c0 ()
    "GET" "/p" none reqC3raw rfl

/-- C2: in all three execution variants only the head signer
`Authorizers[0]` matters: when it fails with `e`, every variant fails with
`signingError e` — even though further signers are configured — and the
result of any variant is unchanged when the tail of the signer list is
replaced by an arbitrary other tail. -/
theorem c2_only_first_signer_used {α κ : Type}
    (marshal : α → Except String String) (now : String)
    (newRequestOK : String → String → Bool)
    (httpDo : κ → Request → Except String Response)
    (jsonDecode : String → Except String ErrorDoc) (c : Client) (ctx : κ)
    (s : Signer) (rest tail2 : List (Option Signer))
    (method path : String) (body : Option α) (query : Option String)
    (e : String)
    (hc : c.authorizers = some s :: rest)
    (hm : ∀ b, ∃ m, marshal b = .ok m)
    (hn : ∀ m u, newRequestOK m u = true)
    (hs : s.sign now = .error e) :
    ExecuteRequestURIParams marshal now newRequestOK httpDo jsonDecode c ctx
        method path body query = .error (.signingError e)
    ∧ ExecuteRequest marshal now newRequestOK httpDo jsonDecode c ctx
        method path body = .error (.signingError e)
    ∧ ExecuteRequestRaw marshal now newRequestOK httpDo c ctx
        method path body = .error (.signingError e)
    ∧ ExecuteRequestURIParams marshal now newRequestOK httpDo jsonDecode
        { c with authorizers := some s :: tail2 } ctx method path body query
      = ExecuteRequestURIParams marshal now newRequestOK httpDo jsonDecode c
          ctx method path body query
    ∧ ExecuteRequestRaw marshal now newRequestOK httpDo
        { c with authorizers := some s :: tail2 } ctx method path body
      = ExecuteRequestRaw marshal now newRequestOK httpDo c ctx
          method path body := by
  have huri : ∀ (c2 : Client) (t : List (Option Signer))
      (q : Option String),
      c2.authorizers = some s :: t → c2.apiURL = c.apiURL →
      ExecuteRequestURIParams marshal now newRequestOK httpDo jsonDecode c2
        ctx method path body q = .error (.signingError e) := by
    intro c2 t q hca hau
    cases body with
    | none =>
      simp [ExecuteRequestURIParams.eq_def, buildRequestURIParams.eq_def,
        hca, hau, hn, hs]
    | some b =>
      obtain ⟨m, hmb⟩ := hm b
      simp [ExecuteRequestURIParams.eq_def, buildRequestURIParams.eq_def,
        hmb, hca, hau, hn, hs]
  have hraw : ∀ (c2 : Client) (t : List (Option Signer)),
      c2.authorizers = some s :: t → c2.apiURL = c.apiURL →
      ExecuteRequestRaw marshal now newRequestOK httpDo c2 ctx method path
        body = .error (.signingError e) := by
    intro c2 t hca hau
    cases body with
    | none =>
      simp [ExecuteRequestRaw.eq_def, buildRequestRaw.eq_def, hca, hau, hn, hs]
    | some b =>
      obtain ⟨m, hmb⟩ := hm b
      simp [ExecuteRequestRaw.eq_def, buildRequestRaw.eq_def, hmb, hca, hau,
        hn, hs]
  refine ⟨huri c rest query hc rfl, huri c rest none hc rfl,
    hraw c rest hc rfl, ?_, ?_⟩
  · exact (huri { c with authorizers := some s :: tail2 } tail2 query rfl
      rfl).trans (huri c rest query hc rfl).symm
  · exact (hraw { c with authorizers := some s :: tail2 } tail2 rfl rfl).trans
      (hraw c rest hc rfl).symm

/-- C2 witness: with a first signer that always errors and a second that
would succeed, all three variants fail with the signing error, and the
results are unchanged when the second signer is dropped. -/
theorem c2_witness :
    ExecuteRequestURIParams (fun _ : Unit => .ok "null") d0 (fun _ _ => true)
        (fun (_ : Unit) _ => .error "no network") decodeGood
        { authorizers := [some errSigner, some okSigner], apiURL := urlNoPath,
          accountName := "acct", endpoint := "http://h" } () "GET" "/p" none
        none
      = .error (.signingError "boom")
    ∧ ExecuteRequest (fun _ : Unit => .ok "null") d0 (fun _ _ => true)
        (fun (_ : Unit) _ => .error "no network") decodeGood
        { authorizers := [some errSigner, some okSigner], apiURL := urlNoPath,
          accountName := "acct", endpoint := "http://h" } () "GET" "/p" none
      = .error (.signingError "boom")
    ∧ ExecuteRequestRaw (fun _ : Unit => .ok "null") d0 (fun _ _ => true)
        (fun (_ : Unit) _ => .error "no network")
        { authorizers := [some errSigner, some okSigner], apiURL := urlNoPath,
          accountName := "acct", endpoint := "http://h" } () "GET" "/p" none
      = .error (.signingError "boom")
    ∧ ExecuteRequestURIParams (fun _ : Unit => .ok "null") d0 (fun _ _ => true)
        (fun (_ : Unit) _ => .error "no network") decodeGood
        { authorizers := [some errSigner], apiURL := urlNoPath,
          accountName := "acct", endpoint := "http://h" } ()
        "GET" "/p" none none
      = ExecuteRequestURIParams (fun _ : Unit => .ok "null") d0
          (fun _ _ => true) (fun (_ : Unit) _ => .error "no network")
          decodeGood
          { authorizers := [some errSigner, some okSigner],
            apiURL := urlNoPath, accountName := "acct",
            endpoint := "http://h" } () "GET" "/p" none none
    ∧ ExecuteRequestRaw (fun _ : Unit => .ok "null") d0 (fun _ _ => true)
        (fun (_ : Unit) _ => .error "no network")
        { authorizers := [some errSigner], apiURL := urlNoPath,
          accountName := "acct", endpoint := "http://h" } ()
        "GET" "/p" none
      = ExecuteRequestRaw (fun _ : Unit => .ok "null") d0 (fun _ _ => true)
          (fun (_ : Unit) _ => .error "no network")
          { authorizers := [some errSigner, some okSigner],
            apiURL := urlNoPath, accountName := "acct",
            endpoint := "http://h" } () "GET" "/p" none :=
  c2_only_first_signer_used (fun _ : Unit => .ok "null") d0 (fun _ _ => true)
    (fun (_ : Unit) _ => .error "no network") decodeGood
    { authorizers := [some errSigner, some okSigner], apiURL := urlNoPath,
      accountName := "acct", endpoint := "http://h" } () errSigner
    [some okSigner] [] "GET" "/p" none none "boom" rfl
    (fun _ => ⟨"null", rfl⟩) (fun _ _ => rfl) rfl

/-- C4: once the transport returns a response for the built request, a
status in [200, 300) makes `ExecuteRequestURIParams` return exactly the
open body stream with no error, and any other status makes it return
`DecodeError`'s outcome as the failure — a `ClientError` or a decode
error — never the body stream. -/
theorem c4_status_classification {α κ : Type}
    (marshal : α → Except String String) (now : String)
    (newRequestOK : String → String → Bool)
    (httpDo : κ → Request → Except String Response)
    (jsonDecode : String → Except String ErrorDoc) (c : Client) (ctx : κ)
    (method path : String) (body : Option α) (query : Option String)
    (req : Request) (resp : Response)
    (hb : buildRequestURIParams marshal now newRequestOK c method path body
      query = .ok req)
    (hr : httpDo ctx req = .ok resp) :
    (200 ≤ resp.statusCode ∧ resp.statusCode < 300 →
      ExecuteRequestURIParams marshal now newRequestOK httpDo jsonDecode c
        ctx method path body query = .ok resp.body)
    ∧ (¬(200 ≤ resp.statusCode ∧ resp.statusCode < 300) →
      ExecuteRequestURIParams marshal now newRequestOK httpDo jsonDecode c
          ctx method path body query
        = match DecodeError jsonDecode resp.statusCode resp.body with
          | .error e => .error (.errorBodyDecodeError e)
          | .ok ce => .error (.apiError ce)) := by
  constructor
  · intro h
    simp only [ExecuteRequestURIParams.eq_def, hb, hr]
    rw [if_pos h]
  · intro h
    simp only [ExecuteRequestURIParams.eq_def, hb, hr]
    rw [if_neg h]

/-- C4 witness: a 200 response yields exactly its body; a 409 response
with a decodable error body yields the decoded ClientError as the
failure. -/
theorem c4_witness :
    ExecuteRequestURIParams (fun _ : Unit => .ok "null") d0 (fun _ _ => true)
        (fun (_ : Unit) _ => .ok { statusCode := 200, body := "hello" })
        decodeGood c0 () "GET" "/p" none none
      = .ok "hello"
    ∧ ExecuteRequestURIParams (fun _ : Unit => .ok "null") d0
        (fun _ _ => true)
        (fun (_ : Unit) _ => .ok { statusCode := 409, body := goodBody })
        decodeGood c0 () "GET" "/p" none none
      = .error (.apiError
          { statusCode := 409, code := "Conflict", message := "exists" }) :=
  ⟨(c4_status_classification (fun _ : Unit => .ok "null") d0 (fun _ _ => true)
      (fun (_ : Unit) _ => .ok { statusCode := 200, body := "hello" })
      decodeGood c0 () "GET" "/p" none none reqC3
      { statusCode := 200, body := "hello" } rfl rfl).1 (by decide),
   (c4_status_classification (fun _ : Unit => .ok "null") d0 (fun _ _ => true)
      (fun (_ : Unit) _ => .ok { statusCode := 409, body := goodBody })
      decodeGood c0 () "GET" "/p" none none reqC3
      { statusCode := 409, body := goodBody } rfl rfl).2 (by decide)⟩

end Triton
